import Mathlib

/-!
Verification of the benchy network-orchestration core: a shallow embedding
of the launch sequencer (`LaunchNetwork`), the monitoring snapshot
(`displayOneShotInfo` / `getRealNodeInfo`), the Ethereum RPC client pool
(`ConnectToNode` / `DisconnectFromNode`), the two Docker runtime-gateway
backends (`IsContainerRunning`), and the CPU-percentage computation
(`calculateCPUUsage`), together with theorems settling the specification
claims about them.

External effects (Docker subprocess results, RPC dial/probe outcomes,
wall-clock time) are passed in as explicit oracle parameters; float64
arithmetic is modelled exactly over `ℚ` (for every concrete value appearing
in the claims the float64 computation is exact, so the results agree).
-/

namespace Benchy

/-! ## Launch sequencer (network_service.go, `LaunchNetwork`)

`LaunchNetwork` launches the five declared nodes alice, bob, cassandra,
driss, elena in that order.  Each per-node launcher
(`launchAliceNodeWithGenesis`, …) is an external effect; whether the launch
of node `i` fails is supplied by the oracle `fails : Fin 5 → Bool`.
The code emits one `progress.Update(i+1, msg)` per node, increments
`successCount` on success, and returns an error iff `successCount == 0`. -/

/-- The declared node list of the launch sequencer, in launch order. -/
def nodeNames : List String := ["alice", "bob", "cassandra", "driss", "elena"]

/-- Result of `LaunchNetwork`: the progress updates emitted (1-based node
index paired with whether that node's launch succeeded, in emission order),
the final `successCount`, and whether the call returned a non-nil error. -/
structure LaunchResult where
  updates : List (Nat × Bool)
  successCount : Nat
  returnsError : Bool
  deriving DecidableEq, Repr

/-- One sequencing step of `LaunchNetwork` for node index `i` (0-based):
emit the progress update `(i+1, ok)` and bump `successCount` on success,
exactly as each of the five unrolled blocks in the Go source does. -/
def launchStep (fails : Fin 5 → Bool) (i : Fin 5) (acc : List (Nat × Bool) × Nat) :
    List (Nat × Bool) × Nat :=
  if fails i then (acc.1 ++ [(i.val + 1, false)], acc.2)
  else (acc.1 ++ [(i.val + 1, true)], acc.2 + 1)

/-- Definition of `LaunchNetwork` with the per-node launch outcomes supplied by `fails`:
the five nodes are attempted in declared order (the Go code is the unrolled
form of this fold), and the call returns an error iff `successCount == 0`. -/
def LaunchNetwork (fails : Fin 5 → Bool) : LaunchResult :=
  let acc := (List.finRange 5).foldl (fun acc i => launchStep fails i acc) ([], 0)
  { updates := acc.1
    successCount := acc.2
    returnsError := acc.2 == 0 }

/-- Number of failing nodes in a launch-outcome oracle. -/
def failCount (fails : Fin 5 → Bool) : Nat :=
  ((List.finRange 5).filter (fun i => fails i)).length

/-! ## Monitoring snapshot (monitoring_service.go)

`displayOneShotInfo` discovers the `benchy-` containers (a `docker ps`
subprocess, modelled as an oracle: `none` = the subprocess failed, `some l`
= the parsed container list), builds one table row per container via
`getRealNodeInfo`, and displays the table.  Per-node Docker-stats and RPC
outcomes are supplied by a `NodeEnv` oracle; the list of Ethereum RPC
operations actually attempted for a node is returned as an explicit trace.
Row cells are modelled as typed fields (`none` = the "N/A" cell); the
`fmt.Sprintf` rendering of cells is presentation, outside this core. -/

/-- Go `strings.Contains s sub`: some suffix of `s` starts with `sub`
(character-level containment; the statuses and the pattern "Up" checked
here are ASCII, where this coincides with Go's byte-level containment). -/
def containsSubstring (s sub : String) : Bool :=
  (List.range (s.data.length + 1)).any (fun i => sub.data.isPrefixOf (s.data.drop i))

/-- Record `ContainerInfo`: one discovered `benchy-` container (monitoring_service.go). -/
structure ContainerInfo where
  ID : String
  NodeName : String
  Status : String
  Port : Nat
  RPCPort : Nat
  deriving DecidableEq, Repr

/-- Record `NodeInfo`: the per-node record `getRealNodeInfo` fills in. -/
structure NodeInfo where
  Name : String
  StatusDisplay : String
  LatestBlock : Nat
  PeerCount : Int
  CPUUsage : ℚ
  MemoryUsage : ℚ
  ETHBalance : ℚ
  PendingTxs : Int
  deriving DecidableEq, Repr

/-- Oracle for the external effects of one node's snapshot step: whether
`docker stats` succeeds (and its parsed values), whether the RPC connect
and each of the three chain queries succeed (and their values), and the
wall-clock `time.Now().Unix()` observed during the step. -/
structure NodeEnv where
  statsOk : Bool
  statsCpu : ℚ
  statsMem : ℚ
  connectOk : Bool
  blockOk : Bool
  peerOk : Bool
  peers : Int
  pendingOk : Bool
  pending : Int
  now : Nat
  deriving DecidableEq, Repr

/-- The Ethereum RPC operations `getRealNodeInfo` can attempt. -/
inductive RpcOp where
  | connect
  | blockNumber
  | peerCount
  | pendingTxCount
  deriving DecidableEq, Repr

/-- The fabricated block-height default used on the connect-failure
("Starting") path: `1234 + time.Now().Unix()%100`. -/
def startingLatestBlock (now : Nat) : Nat := 1234 + now % 100

/-- The peer-count default used on the connect-failure ("Starting") path. -/
def startingPeerCount : Int := 0

/-- Function `getRealNodeInfo`: builds a node's `NodeInfo` from its container record
and the oracle, returning `(info, non-nil-error?, RPC ops attempted)`.
Mirrors monitoring_service.go: container not "Up" → Offline + error, no RPC;
stats failure → defaults 0.5 / 128.0; connect failure → Starting row with
the fabricated defaults, nil error; otherwise the three chain queries each
degrade independently and the final status is derived from peers/block. -/
def getRealNodeInfo (env : NodeEnv) (container : ContainerInfo) :
    NodeInfo × Bool × List RpcOp :=
  let base : NodeInfo :=
    { Name := container.NodeName, StatusDisplay := "", LatestBlock := 0,
      PeerCount := 0, CPUUsage := 0, MemoryUsage := 0, ETHBalance := 0,
      PendingTxs := 0 }
  if ¬ containsSubstring container.Status "Up" then
    ({ base with StatusDisplay := "❌ Offline" }, true, [])
  else
    let info :=
      if env.statsOk then
        { base with CPUUsage := env.statsCpu, MemoryUsage := env.statsMem }
      else
        { base with CPUUsage := (1 : ℚ) / 2, MemoryUsage := 128 }
    if ¬ env.connectOk then
      ({ info with StatusDisplay := "🔄 Starting",
                   LatestBlock := startingLatestBlock env.now,
                   PeerCount := startingPeerCount,
                   ETHBalance := 1000 }, false, [RpcOp.connect])
    else
      let lb := if env.blockOk then 1234 + env.now % 50 else 1234 + env.now % 100
      let pc := if env.peerOk then env.peers else 0
      let pt := if env.pendingOk then env.pending else 0
      let status :=
        if pc > 0 then "✅ Online"
        else if lb > 0 then "🔄 Syncing"
        else "⏳ Starting"
      ({ info with StatusDisplay := status, LatestBlock := lb, PeerCount := pc,
                   PendingTxs := pt, ETHBalance := 1000 }, false,
       [RpcOp.connect, RpcOp.blockNumber, RpcOp.peerCount, RpcOp.pendingTxCount])

/-- One table row of the snapshot; `none` cells are the "N/A" cells of the
Offline row (cell rendering via `fmt.Sprintf` is presentation, out of scope). -/
structure Row where
  name : String
  rowStatus : String
  block : Option Nat
  peers : Option Int
  cpuMem : Option (ℚ × ℚ)
  balance : Option ℚ
  idShort : String
  deriving DecidableEq, Repr

/-- The row `displayOneShotInfo` appends for one container: the all-"N/A"
Offline row when `getRealNodeInfo` returned an error, the filled row
otherwise (`container.ID[:12]` is the id prefix cell). -/
def snapshotRow (env : NodeEnv) (container : ContainerInfo) : Row :=
  match getRealNodeInfo env container with
  | (_, true, _) =>
    { name := container.NodeName, rowStatus := "❌ Offline", block := none,
      peers := none, cpuMem := none, balance := none,
      idShort := container.ID.take 12 }
  | (info, false, _) =>
    { name := info.Name, rowStatus := info.StatusDisplay,
      block := some info.LatestBlock, peers := some info.PeerCount,
      cpuMem := some (info.CPUUsage, info.MemoryUsage),
      balance := some info.ETHBalance, idShort := container.ID.take 12 }

/-- Outcome of one `displayOneShotInfo` call: the discovery subprocess
failed (wrapped error returned), the explicit "No benchy containers found"
warning (returns nil, no table), the displayed table (returns nil), or the
assembled table whose `DisplayTable` rendering failed (wrapped error
returned, monitoring_service.go:127-129). -/
inductive SnapshotOutcome where
  | discoveryFailed
  | noContainers
  | table (rows : List Row)
  | displayFailed (rows : List Row)
  deriving DecidableEq, Repr

/-- Whether `displayOneShotInfo` returned a non-nil error for this outcome. -/
def snapshotReturnsError : SnapshotOutcome → Bool
  | SnapshotOutcome.discoveryFailed => true
  | SnapshotOutcome.noContainers => false
  | SnapshotOutcome.table _ => false
  | SnapshotOutcome.displayFailed _ => true

/-- Function `displayOneShotInfo` over the discovery oracle, the
per-container oracles, and the presenter oracle `displayOk` (whether
`feedback.DisplayTable` succeeds): discovery failure → error; zero
containers → warning, return nil; otherwise one row per container in
discovery order, returning nil on a displayed table and a wrapped error
when `DisplayTable` fails. -/
def displayOneShotInfo (discovered : Option (List ContainerInfo))
    (envOf : ContainerInfo → NodeEnv) (displayOk : Bool) : SnapshotOutcome :=
  match discovered with
  | none => SnapshotOutcome.discoveryFailed
  | some [] => SnapshotOutcome.noContainers
  | some containers =>
      let rows := containers.map (fun c => snapshotRow (envOf c) c)
      if displayOk then SnapshotOutcome.table rows
      else SnapshotOutcome.displayFailed rows

/-- A fixed sample oracle used for concrete evaluations. -/
def sampleEnv : NodeEnv :=
  { statsOk := true, statsCpu := 3, statsMem := 256, connectOk := true,
    blockOk := true, peerOk := true, peers := 2, pendingOk := true,
    pending := 0, now := 0 }

/-- Sample oracle whose RPC connect fails. -/
def envNoConnect : NodeEnv := { sampleEnv with connectOk := false }

/-- A running container record (`docker ps` status "Up 2 minutes"). -/
def cUp : ContainerInfo :=
  { ID := "abcdef0123456789", NodeName := "alice", Status := "Up 2 minutes",
    Port := 30303, RPCPort := 8545 }

/-- A stopped container record (`docker ps` status without "Up"). -/
def cDown : ContainerInfo :=
  { ID := "0123456789abcdef", NodeName := "bob",
    Status := "Exited (1) 3 seconds ago", Port := 30304, RPCPort := 8546 }

/-! ## Chain RPC client pool (ethereum client, `EthereumClient`)

The pool keeps two maps keyed by node URL: `clients` (the `ethclient`
handles) and `rpcClients` (the raw `rpc.Client` handles), here modelled as
association lists with the transport handle an opaque `Nat`.  The outcomes
of `rpc.DialContext` and of the `NetworkID` liveness probe are supplied by
a `DialEnv` oracle, and each transport operation performed is returned as
an explicit trace. -/

/-- Oracle for one `ConnectToNode` attempt: whether the dial succeeds,
whether the `NetworkID` liveness probe succeeds, and the handle the dial
would produce. -/
structure DialEnv where
  dialOk : Bool
  probeOk : Bool
  handle : Nat
  deriving DecidableEq, Repr

/-- Transport-level operations a pool call can perform. -/
inductive TransportOp where
  | dial
  | probe
  | closeTransport
  deriving DecidableEq, Repr

/-- The pool state: the key/handle entries of the `clients` and
`rpcClients` maps. -/
structure EthereumClient where
  clients : List (String × Nat)
  rpcClients : List (String × Nat)
  deriving DecidableEq, Repr

/-- Constructor `NewEthereumClient`: both maps start empty. -/
def NewEthereumClient : EthereumClient := { clients := [], rpcClients := [] }

/-- Go map membership `_, exists := m[k]` on the association-list model. -/
def hasKey (m : List (String × Nat)) (k : String) : Bool :=
  m.any (fun p => p.1 == k)

/-- Function `ConnectToNode`: returns the new pool state, whether a non-nil error
was returned, and the transport operations performed.  Mirrors the source:
already-connected URL → immediate nil, no transport activity; dial failure
→ error, state unchanged; probe failure → the fresh transport is closed,
error, state unchanged; success → the handle is stored in both maps. -/
def ConnectToNode (env : DialEnv) (ec : EthereumClient) (nodeURL : String) :
    EthereumClient × Bool × List TransportOp :=
  if hasKey ec.clients nodeURL then (ec, false, [])
  else if ¬ env.dialOk then (ec, true, [TransportOp.dial])
  else if ¬ env.probeOk then
    (ec, true, [TransportOp.dial, TransportOp.probe, TransportOp.closeTransport])
  else
    ({ clients := (nodeURL, env.handle) :: ec.clients,
       rpcClients := (nodeURL, env.handle) :: ec.rpcClients }, false,
     [TransportOp.dial, TransportOp.probe])

/-- Function `DisconnectFromNode`: when the URL is connected, close its transport
and delete the entry from both maps; otherwise a no-op.  Always returns a
nil error. -/
def DisconnectFromNode (ec : EthereumClient) (nodeURL : String) :
    EthereumClient × Bool × List TransportOp :=
  if hasKey ec.rpcClients nodeURL then
    ({ clients := ec.clients.filter (fun p => !(p.1 == nodeURL)),
       rpcClients := ec.rpcClients.filter (fun p => !(p.1 == nodeURL)) },
     false, [TransportOp.closeTransport])
  else (ec, false, [])

/-- Number of liveness probes in a transport trace. -/
def probeUses (ops : List TransportOp) : Nat :=
  (ops.filter (fun o => o == TransportOp.probe)).length

/-- The pool invariant: the two maps hold exactly the same keys. -/
def sameKeys (ec : EthereumClient) : Prop :=
  ec.clients.map Prod.fst = ec.rpcClients.map Prod.fst

instance (ec : EthereumClient) : Decidable (sameKeys ec) := by
  unfold sameKeys; infer_instance

/-- A dial oracle where dial and probe both succeed. -/
def envDialOk : DialEnv := { dialOk := true, probeOk := true, handle := 7 }

/-- A dial oracle where the dial succeeds but the liveness probe fails. -/
def envProbeFails : DialEnv := { dialOk := true, probeOk := false, handle := 7 }

/-! ## Container runtime gateway backends (`IsContainerRunning`)

Two backends implement the same contract: the API-based `DockerClient`
(Docker SDK `ContainerInspect`) and the subprocess-CLI `DockerClient`
(`docker inspect --format \x7b\x7b.State.Running\x7d\x7d`).  The inspect
outcome is supplied by an `InspectEnv` oracle; each backend returns
`(running?, non-nil-error?)`. -/

/-- Oracle for one container inspection: whether it succeeds, the API
backend's `inspect.State.Running` field, and the CLI backend's raw command
output. -/
structure InspectEnv where
  inspectOk : Bool
  stateRunning : Bool
  cmdOutput : String
  deriving DecidableEq, Repr

namespace ApiBackend

/-- API backend `IsContainerRunning`: on inspect failure it returns
`(false, non-nil wrapped error)`; otherwise `inspect.State.Running`. -/
def IsContainerRunning (env : InspectEnv) (_containerID : String) :
    Bool × Bool :=
  if ¬ env.inspectOk then (false, true)
  else (env.stateRunning, false)

end ApiBackend

namespace CliBackend

/-- CLI backend `IsContainerRunning`: on command failure it returns
`(false, nil)` (container treated as nonexistent); otherwise whether the
trimmed output equals "true". -/
def IsContainerRunning (env : InspectEnv) (_containerID : String) :
    Bool × Bool :=
  if ¬ env.inspectOk then (false, false)
  else (env.cmdOutput.trim == "true", false)

end CliBackend

/-- A concrete failed-inspection oracle (unknown container id). -/
def envInspectFails : InspectEnv :=
  { inspectOk := false, stateRunning := false, cmdOutput := "" }

/-! ## CPU-percentage computation (`calculateCPUUsage`)

The Docker stats sample carries raw `uint64` counters; the Go code
subtracts them as `uint64` (wrapping) before converting to `float64`.
Arithmetic is modelled exactly over `ℚ`; for the concrete values of the
claims the `float64` computation is exact as well. -/

/-- One CPU counter sample (`CPUStats` / `PreCPUStats`): total usage,
system usage, and the length of the per-CPU usage list. -/
structure CPUSample where
  TotalUsage : Nat
  SystemUsage : Nat
  percpuLen : Nat
  deriving DecidableEq, Repr

/-- The stats record passed to `calculateCPUUsage`. -/
structure StatsJSON where
  CPUStats : CPUSample
  PreCPUStats : CPUSample
  deriving DecidableEq, Repr

/-- Go `uint64` subtraction `a - b` (wraps modulo `2^64`). -/
def u64sub (a b : Nat) : Nat :=
  ((a % 2 ^ 64) + 2 ^ 64 - b % 2 ^ 64) % 2 ^ 64

/-- Function `calculateCPUUsage`: 0 when the prior sample's per-CPU list is empty
(no prior sample); otherwise `(cpuDelta/systemDelta) * numberCPUs * 100`
when both deltas are positive, else 0. -/
def calculateCPUUsage (stats : StatsJSON) : ℚ :=
  if stats.PreCPUStats.percpuLen = 0 then 0
  else
    let cpuDelta : ℚ := (u64sub stats.CPUStats.TotalUsage stats.PreCPUStats.TotalUsage : ℚ)
    let systemDelta : ℚ := (u64sub stats.CPUStats.SystemUsage stats.PreCPUStats.SystemUsage : ℚ)
    let numberCPUs : ℚ := (stats.CPUStats.percpuLen : ℚ)
    if systemDelta > 0 ∧ cpuDelta > 0 then
      cpuDelta / systemDelta * numberCPUs * 100
    else 0

/-- The specification's worked example: prior total usage 100, current
total usage 200000100 (cpu delta 200000000), prior system usage 0, current
system usage 1000000000, 4 CPU cores (prior sample present). -/
def workedExample : StatsJSON :=
  { CPUStats := { TotalUsage := 200000100, SystemUsage := 1000000000,
                  percpuLen := 4 },
    PreCPUStats := { TotalUsage := 100, SystemUsage := 0, percpuLen := 4 } }

/-- A first-observation sample: the prior per-CPU usage list is empty. -/
def noPriorSample : StatsJSON :=
  { CPUStats := { TotalUsage := 300, SystemUsage := 1000, percpuLen := 4 },
    PreCPUStats := { TotalUsage := 0, SystemUsage := 0, percpuLen := 0 } }

/-- Endpoint used in concrete pool evaluations. -/
def urlAlice : String := "http://localhost:8545"

/-- Keys of a filtered association list are the filtered keys. -/
theorem keys_filter_ne (l : List (String × Nat)) (url : String) :
    (l.filter (fun p => !(p.1 == url))).map Prod.fst =
      (l.map Prod.fst).filter (fun k => !(k == url)) := by
  induction l with
  | nil => rfl
  | cons a l ih =>
      by_cases h : a.1 == url <;> simp [List.filter_cons, h, ih]

end Benchy

/-! ## Claim theorems -/

open Benchy

/-- Claim C1: For every pattern of per-node launch failures (exactly
`failCount fails` of the 5 declared nodes fail), `LaunchNetwork` attempts
every one of the 5 nodes in declared order — the emitted progress updates
are exactly for indices 1,2,3,4,5 in order, never cut short by a failure —
and the reported success count equals `5 - failCount fails`. -/
theorem launch_attempts_all_nodes_and_counts (fails : Fin 5 → Bool) :
    ((LaunchNetwork fails).updates.map Prod.fst = [1, 2, 3, 4, 5]) ∧
    (LaunchNetwork fails).successCount = 5 - failCount fails := by
  revert fails; decide

/-- Claim C2: `LaunchNetwork` returns a hard error if and only if zero nodes
launched successfully; every partial outcome `0 < succeeded < 5` (and the
total success) returns nil while the reported count is `5 - failCount`. -/
theorem launch_error_iff_zero_success (fails : Fin 5 → Bool) :
    (LaunchNetwork fails).returnsError = true ↔
      (LaunchNetwork fails).successCount = 0 := by
  revert fails; decide

/-- Claim C3 counterexample: With zero discovered containers the snapshot
yields the explicit no-containers outcome but returns a nil error to its
caller — refuting the claim that the zero-containers condition propagates
as a hard error. -/
theorem snapshot_zero_containers_no_hard_error :
    displayOneShotInfo (some []) (fun _ => sampleEnv) true =
      SnapshotOutcome.noContainers ∧
    snapshotReturnsError
      (displayOneShotInfo (some []) (fun _ => sampleEnv) true) = false := by
  exact ⟨rfl, rfl⟩

/-- Claim C3 as amended: When the snapshot discovers zero matching
containers it reports the explicit "no containers found" outcome,
distinguishable from every (even empty) successful table, but the
zero-containers condition returns success (a nil error) to the caller
rather than a hard error — whatever the presenter oracle would have done
with a table. -/
theorem snapshot_zero_containers_warns (envOf : ContainerInfo → NodeEnv)
    (displayOk : Bool) :
    displayOneShotInfo (some []) envOf displayOk =
      SnapshotOutcome.noContainers ∧
    snapshotReturnsError (displayOneShotInfo (some []) envOf displayOk) =
      false ∧
    (∀ rows : List Row,
       SnapshotOutcome.noContainers ≠ SnapshotOutcome.table rows) := by
  refine ⟨rfl, rfl, fun rows h => ?_⟩
  cases h

/-- Claim C4: A node whose container status contains "Up" but whose RPC
connect fails is reported without error (so the snapshot emits its normal
row, not the Offline row): display status "🔄 Starting", block height the
defined Starting default `1234 + now % 100`, peer count the defined
Starting default `0`, balance 1000, and stats from `docker stats` or their
defaults. -/
theorem starting_row_on_connect_failure (env : NodeEnv) (c : ContainerInfo)
    (hup : containsSubstring c.Status "Up" = true)
    (hconn : env.connectOk = false) :
    (getRealNodeInfo env c).2.1 = false ∧
    snapshotRow env c =
      { name := c.NodeName, rowStatus := "🔄 Starting",
        block := some (startingLatestBlock env.now),
        peers := some startingPeerCount,
        cpuMem := some (if env.statsOk then (env.statsCpu, env.statsMem)
                        else ((1 : ℚ) / 2, 128)),
        balance := some 1000, idShort := c.ID.take 12 } := by
  by_cases hs : env.statsOk <;>
    simp [snapshotRow, getRealNodeInfo, hup, hconn, hs]

/-- Claim C4 witness: the Starting row at a concrete running container with a
failing connect. -/
theorem starting_row_on_connect_failure_witness :
    (getRealNodeInfo envNoConnect cUp).2.1 = false ∧
    (snapshotRow envNoConnect cUp).rowStatus = "🔄 Starting" ∧
    (snapshotRow envNoConnect cUp).block =
      some (startingLatestBlock envNoConnect.now) ∧
    (snapshotRow envNoConnect cUp).peers = some startingPeerCount := by
  have h := starting_row_on_connect_failure envNoConnect cUp (by decide) rfl
  exact ⟨h.1, by rw [h.2], by rw [h.2], by rw [h.2]⟩

/-- Claim C5: For every candidate container whose runtime status does not
contain "Up", the snapshot records the row status "❌ Offline" (with all
chain cells "N/A") and attempts no RPC operation at all against that node
(its RPC trace is empty); and every non-empty discovery assembles exactly
the per-container rows of `snapshotRow` (displayed when the presenter
succeeds, returned inside the display-failure outcome otherwise), so this
is the row the snapshot holds for such a node. -/
theorem offline_row_no_rpc_attempted (env : NodeEnv) (c : ContainerInfo)
    (hdown : containsSubstring c.Status "Up" = false) :
    (getRealNodeInfo env c).2.2 = [] ∧
    snapshotRow env c =
      { name := c.NodeName, rowStatus := "❌ Offline", block := none,
        peers := none, cpuMem := none, balance := none,
        idShort := c.ID.take 12 } ∧
    (∀ (envOf : ContainerInfo → NodeEnv) (x : ContainerInfo)
       (xs : List ContainerInfo),
       displayOneShotInfo (some (x :: xs)) envOf true =
         SnapshotOutcome.table
           ((x :: xs).map (fun y => snapshotRow (envOf y) y)) ∧
       displayOneShotInfo (some (x :: xs)) envOf false =
         SnapshotOutcome.displayFailed
           ((x :: xs).map (fun y => snapshotRow (envOf y) y))) := by
  refine ⟨?_, ?_, fun envOf x xs => ⟨rfl, rfl⟩⟩ <;>
    simp [snapshotRow, getRealNodeInfo, hdown]

/-- Claim C5 witness: a concrete exited container yields the Offline row and
an empty RPC trace. -/
theorem offline_row_no_rpc_attempted_witness :
    (getRealNodeInfo sampleEnv cDown).2.2 = [] ∧
    (snapshotRow sampleEnv cDown).rowStatus = "❌ Offline" := by
  have h := offline_row_no_rpc_attempted sampleEnv cDown (by decide)
  exact ⟨h.1, by rw [h.2.1]⟩

/-- Claim C6: `ConnectToNode` is idempotent: whenever a first call for an
endpoint returned success, a second call without an intervening disconnect
returns success immediately with no transport activity at all (no dial, no
probe) and leaves the pool unchanged, so across the two calls the liveness
probe runs at most once. -/
theorem connect_idempotent (env1 env2 : DialEnv) (ec : EthereumClient)
    (url : String) (hok : (ConnectToNode env1 ec url).2.1 = false) :
    ConnectToNode env2 (ConnectToNode env1 ec url).1 url =
      ((ConnectToNode env1 ec url).1, false, []) ∧
    probeUses (ConnectToNode env1 ec url).2.2 +
      probeUses (ConnectToNode env2 (ConnectToNode env1 ec url).1 url).2.2 ≤ 1 := by
  by_cases h : hasKey ec.clients url
  · have h1 : ConnectToNode env1 ec url = (ec, false, []) := by
      simp [ConnectToNode, h]
    have h2 : ConnectToNode env2 ec url = (ec, false, []) := by
      simp [ConnectToNode, h]
    constructor
    · simp [h1, h2]
    · simp [h1, h2, probeUses]
  · by_cases hd : env1.dialOk
    · by_cases hp : env1.probeOk
      · have h1 : ConnectToNode env1 ec url =
            ({ clients := (url, env1.handle) :: ec.clients,
               rpcClients := (url, env1.handle) :: ec.rpcClients }, false,
             [TransportOp.dial, TransportOp.probe]) := by
          simp [ConnectToNode, h, hd, hp]
        have h2 : ConnectToNode env2
            { clients := (url, env1.handle) :: ec.clients,
              rpcClients := (url, env1.handle) :: ec.rpcClients } url =
            ({ clients := (url, env1.handle) :: ec.clients,
               rpcClients := (url, env1.handle) :: ec.rpcClients }, false, []) := by
          simp [ConnectToNode, hasKey]
        constructor
        · simp [h1, h2]
        · simp [h1, h2, probeUses]
      · exfalso; simp [ConnectToNode, h, hd, hp] at hok
    · exfalso; simp [ConnectToNode, h, hd] at hok

/-- Claim C6 witness: a concrete fresh connect followed by a reconnect. -/
theorem connect_idempotent_witness :
    ConnectToNode envDialOk (ConnectToNode envDialOk NewEthereumClient urlAlice).1 urlAlice =
      ((ConnectToNode envDialOk NewEthereumClient urlAlice).1, false, []) ∧
    probeUses (ConnectToNode envDialOk NewEthereumClient urlAlice).2.2 +
      probeUses (ConnectToNode envDialOk
        (ConnectToNode envDialOk NewEthereumClient urlAlice).1 urlAlice).2.2 ≤ 1 :=
  connect_idempotent envDialOk envDialOk NewEthereumClient urlAlice (by decide)

/-- Claim C7: All-or-nothing connect: for an endpoint not in the pool, when
the dial succeeds but the liveness probe fails, the partially opened
transport is closed, an error is returned, and the pool state is left
exactly unchanged — no half-open entry is stored. -/
theorem connect_probe_failure_rolls_back (env : DialEnv) (ec : EthereumClient)
    (url : String) (hnew : hasKey ec.clients url = false)
    (hdial : env.dialOk = true) (hprobe : env.probeOk = false) :
    ConnectToNode env ec url =
      (ec, true,
       [TransportOp.dial, TransportOp.probe, TransportOp.closeTransport]) := by
  simp [ConnectToNode, hnew, hdial, hprobe]

/-- Claim C7 witness: a concrete failed probe on an empty pool. -/
theorem connect_probe_failure_rolls_back_witness :
    ConnectToNode envProbeFails NewEthereumClient urlAlice =
      (NewEthereumClient, true,
       [TransportOp.dial, TransportOp.probe, TransportOp.closeTransport]) :=
  connect_probe_failure_rolls_back envProbeFails NewEthereumClient urlAlice
    (by decide) rfl rfl

/-- Claim C8 counterexample: At a failed inspection the API backend returns
`(false, non-nil error)` while the CLI backend returns `(false, nil)` — the
two backends do not behave identically, and the API backend does return an
error, refuting the claim. -/
theorem api_backend_errors_on_failed_inspect :
    ApiBackend.IsContainerRunning envInspectFails "nosuch" = (false, true) ∧
    CliBackend.IsContainerRunning envInspectFails "nosuch" = (false, false) ∧
    ApiBackend.IsContainerRunning envInspectFails "nosuch" ≠
      CliBackend.IsContainerRunning envInspectFails "nosuch" := by
  refine ⟨rfl, rfl, by decide⟩

/-- Claim C8 as amended: For every container id whose inspection fails, the
subprocess-CLI backend returns `false` with no error, but the API backend
returns `false` together with a non-nil (wrapped) error; the two backends
differ on failed inspection. -/
theorem backends_on_failed_inspect (env : InspectEnv) (id : String)
    (hfail : env.inspectOk = false) :
    CliBackend.IsContainerRunning env id = (false, false) ∧
    ApiBackend.IsContainerRunning env id = (false, true) := by
  simp [CliBackend.IsContainerRunning, ApiBackend.IsContainerRunning, hfail]

/-- Claim C8 witness: the two backends evaluated at a concrete failed
inspection. -/
theorem backends_on_failed_inspect_witness :
    CliBackend.IsContainerRunning envInspectFails "deadbeef" = (false, false) ∧
    ApiBackend.IsContainerRunning envInspectFails "deadbeef" = (false, true) :=
  backends_on_failed_inspect envInspectFails "deadbeef" rfl

/-- Claim C9: `calculateCPUUsage` returns 0 whenever no prior counter sample
is available (empty prior per-CPU list), and on the specification's worked
example — cpu delta 200000000, system delta 1000000000 from prior system
usage 0, 4 CPU cores — it returns exactly 80. -/
theorem cpu_usage_default_and_worked_example :
    (∀ stats : StatsJSON, stats.PreCPUStats.percpuLen = 0 →
       calculateCPUUsage stats = 0) ∧
    calculateCPUUsage workedExample = 80 := by
  constructor
  · intro stats h; simp [calculateCPUUsage, h]
  · have h1 : u64sub workedExample.CPUStats.TotalUsage
        workedExample.PreCPUStats.TotalUsage = 200000000 := by
      norm_num [u64sub, workedExample]
    have h2 : u64sub workedExample.CPUStats.SystemUsage
        workedExample.PreCPUStats.SystemUsage = 1000000000 := by
      norm_num [u64sub, workedExample]
    unfold calculateCPUUsage
    rw [h1, h2]
    norm_num [workedExample]

/-- Claim C9 witness: both parts evaluated at concrete samples. -/
theorem cpu_usage_default_and_worked_example_witness :
    calculateCPUUsage noPriorSample = 0 ∧
    calculateCPUUsage workedExample = 80 :=
  ⟨cpu_usage_default_and_worked_example.1 noPriorSample rfl,
   cpu_usage_default_and_worked_example.2⟩

/-- Claim C10: The pool invariant — the `clients` and `rpcClients` maps hold
exactly the same key set — holds of the fresh pool and is preserved by
every `ConnectToNode` (which stores into both maps or neither) and every
`DisconnectFromNode` (which removes from both maps together). -/
theorem pool_maps_same_keys :
    sameKeys NewEthereumClient ∧
    ∀ (env : DialEnv) (ec : EthereumClient) (url : String), sameKeys ec →
      sameKeys (ConnectToNode env ec url).1 ∧
      sameKeys (DisconnectFromNode ec url).1 := by
  refine ⟨rfl, fun env ec url hinv => ⟨?_, ?_⟩⟩
  · unfold ConnectToNode
    by_cases h : hasKey ec.clients url
    · simpa [h] using hinv
    · by_cases hd : env.dialOk
      · by_cases hp : env.probeOk
        · simp [h, hd, hp, sameKeys] at hinv ⊢; exact hinv
        · simpa [h, hd, hp] using hinv
      · simpa [h, hd] using hinv
  · unfold DisconnectFromNode
    by_cases h : hasKey ec.rpcClients url
    · simp [h, sameKeys, keys_filter_ne]
      unfold sameKeys at hinv
      rw [hinv]
    · simpa [h] using hinv

/-- Claim C10 witness: invariant preservation at a concrete connect and
disconnect from the fresh pool. -/
theorem pool_maps_same_keys_witness :
    sameKeys (ConnectToNode envDialOk NewEthereumClient urlAlice).1 ∧
    sameKeys (DisconnectFromNode NewEthereumClient urlAlice).1 :=
  pool_maps_same_keys.2 envDialOk NewEthereumClient urlAlice (by decide)
